import Mathlib

/-!
Verification of the Azure AD directory-synchronization core of the
dani-platform repository (Django HRIS/ATS).

The definitions below are a shallow embedding of:
  * `accounts/models.py`        — the `User` sync-state fields and the
    `AzureADSettings` singleton (`is_configured`);
  * `accounts/azure_ad_service.py` — `AzureADService`: `_make_graph_request`,
    `_generate_secure_password`, `create_user`, `update_user`, `disable_user`,
    `delete_user`, `sync_user_from_hris`;
  * `accounts/tasks.py`         — the Celery wrapper `sync_user_to_azure_ad`
    and the periodic `cleanup_sync_status` sweep;
  * `accounts/azure_ad_admin_actions.py` — the admin queryset updates.

External effects are passed as explicit parameters: the token acquisition
result is an `Option String`, the remote HTTP outcome is a `RemoteOutcome`
value, randomness (`secrets.choice`) is supplied as the list of drawn
characters, and `django_timezone.now()` is a `Nat` timestamp.
-/

namespace DaniPlatform

/-- The `azure_ad_sync_status` choices of `accounts.models.User`
(models.py lines 142-152): pending / synced / failed / disabled. -/
inductive SyncStatus
  | pending
  | synced
  | failed
  | disabled
deriving Repr, DecidableEq

/-- The related model `employees.JobTitle` (employees/models.py line 14):
`accounts.models.User.job_title` is a ForeignKey to it (models.py line 84).
Only the `title` CharField (max_length 100) is relevant here.  The model has
no `strip` method. -/
structure JobTitle where
  title : String
deriving Repr, DecidableEq

/-- The fields of a manager reference (`User.manager`, a self-FK) that the
sync service reads: `email` and `azure_ad_object_id`. -/
structure ManagerRef where
  email : String
  azure_ad_object_id : Option String
deriving Repr, DecidableEq

/-- The fields of `accounts.models.User` that the sync subsystem reads or
writes.  CharFields with `blank=True` are plain strings where `""` is the
Python-falsy absent value; nullable fields are `Option`s.
`department_name` stands for `user.department.name` (`none` = no department);
`employee_type_display` stands for `user.get_employee_type_display()`;
`hire_date` carries `user.hire_date.isoformat()` when a hire date is set.
`last_login`/`date_joined` are the only other DateTime fields on the model
and are carried for the ORM field table used by `cleanup_sync_status`. -/
structure UserRec where
  email : String
  business_email : String
  first_name : String
  last_name : String
  is_active : Bool
  phone_number : String
  department_name : Option String
  job_title : Option JobTitle
  company_name : String
  employee_id : String
  employee_type : String
  employee_type_display : String
  hire_date : Option String
  office_location : String
  manager : Option ManagerRef
  last_login : Option Nat
  date_joined : Nat
  azure_ad_object_id : Option String
  azure_ad_sync_enabled : Bool
  azure_ad_last_sync : Option Nat
  azure_ad_sync_status : SyncStatus
  azure_ad_sync_error : String
deriving Repr, DecidableEq

/-- Python `str.strip()`: remove leading and trailing whitespace. -/
def pyStrip (s : String) : String :=
  ⟨((s.data.dropWhile Char.isWhitespace).reverse.dropWhile
      Char.isWhitespace).reverse⟩

/-- Python `s[:n]` on a str: the first `n` characters. -/
def pyTake (s : String) (n : Nat) : String :=
  ⟨s.data.take n⟩

/-- `user.get_full_name()` (models.py lines 179-181):
`f"{first_name} {last_name}".strip()`. -/
def UserRec.get_full_name (u : UserRec) : String :=
  pyStrip (u.first_name ++ " " ++ u.last_name)

/-- The fields of the `AzureADSettings` singleton (models.py lines 289-443)
that the sync service reads. -/
structure AzureADSettings where
  enabled : Bool
  tenant_id : String
  client_id : String
  client_secret : String
  sync_enabled : Bool
  sync_on_user_create : Bool
  sync_on_user_update : Bool
  sync_on_user_disable : Bool
  default_password_length : Nat
deriving Repr, DecidableEq

/-- `AzureADSettings.is_configured` (models.py lines 425-436):
`enabled and tenant_id and client_id and client_secret and
len(tenant_id.strip()) > 0 and len(client_id.strip()) > 0 and
len(client_secret.strip()) > 0`, read as a boolean. -/
def AzureADSettings.is_configured (s : AzureADSettings) : Bool :=
  s.enabled
    && !s.tenant_id.isEmpty
    && !s.client_id.isEmpty
    && !s.client_secret.isEmpty
    && !(pyStrip s.tenant_id).isEmpty
    && !(pyStrip s.client_id).isEmpty
    && !(pyStrip s.client_secret).isEmpty

/-- Python exceptions raised while building a request payload. -/
inductive PyError
  | attributeError (msg : String)
deriving Repr, DecidableEq

instance {ε α : Type} [DecidableEq ε] [DecidableEq α] :
    DecidableEq (Except ε α) := fun x y =>
  match x, y with
  | .ok a, .ok b =>
      if h : a = b then .isTrue (by rw [h])
      else .isFalse (by intro he; cases he; exact h rfl)
  | .error e, .error f =>
      if h : e = f then .isTrue (by rw [h])
      else .isFalse (by intro he; cases he; exact h rfl)
  | .ok _, .error _ => .isFalse (by intro he; cases he)
  | .error _, .ok _ => .isFalse (by intro he; cases he)

/-- The outcome of the `requests` call inside `_make_graph_request`
(azure_ad_service.py lines 100-120), supplied as an oracle:
`ok id` models a response with status 200/201/204 whose decoded JSON body
has `id` as its `"id"` value (`none` when the body is empty or has no id);
`httpError st text` models any other status with `response.text = text`;
`transport msg` models a raised exception with message `msg`. -/
inductive RemoteOutcome
  | ok (id : Option String)
  | httpError (status : Nat) (text : String)
  | transport (msg : String)
deriving Repr, DecidableEq

/-- The `(success, result-dict)` pair returned by `_make_graph_request`:
on success the decoded body (its `"id"` entry), on failure the
`{"error": ..., "details": ...}` dictionary. -/
inductive GraphCallResult
  | success (id : Option String)
  | failure (error : String) (details : Option String)
deriving Repr, DecidableEq

/-- `AzureADService._make_graph_request` (azure_ad_service.py lines 85-120):
without a token it returns `(False, {"error": "Unable to acquire access
token"})`; a 200/201/204 response is a success carrying the decoded body;
any other status yields `{"error": f"HTTP {status}", "details": text}`;
an exception yields `{"error": str(e)}`. -/
def make_graph_request (token : Option String) (remote : RemoteOutcome) :
    GraphCallResult :=
  match token with
  | none => .failure "Unable to acquire access token" none
  | some _ =>
    match remote with
    | .ok id => .success id
    | .httpError st text => .failure ("HTTP " ++ toString st) (some text)
    | .transport msg => .failure msg none

/-- The string written into `azure_ad_sync_error` on a failed call:
`f"{result.get('error', 'Unknown error')}: {result.get('details',
'No details available')}"` (azure_ad_service.py line 244 and 346). -/
def graphFailureMessage (error : String) (details : Option String) : String :=
  error ++ ": " ++ details.getD "No details available"

/-- The JSON dictionary sent to the Graph API for user create/update.
Each `Option` field is present in the dictionary exactly when it is `some`.
`managerBind` is the `"manager@odata.bind"` entry; `some none` is an
explicit JSON null.  `passwordProfile` carries the password value
(`forceChangePasswordNextSignIn` is the constant `True`). -/
structure GraphUserPayload where
  accountEnabled : Option Bool := none
  displayName : Option String := none
  mailNickname : Option String := none
  userPrincipalName : Option String := none
  mail : Option String := none
  givenName : Option String := none
  surname : Option String := none
  passwordProfile : Option String := none
  jobTitle : Option String := none
  department : Option String := none
  businessPhones : Option (List String) := none
  companyName : Option String := none
  employeeId : Option String := none
  employeeType : Option String := none
  employeeHireDate : Option String := none
  officeLocation : Option String := none
  managerBind : Option (Option String) := none
deriving Repr, DecidableEq

/-- The job-title block of `create_user`/`update_user` (azure_ad_service.py
lines 176-182 and 275-281): `if user.job_title and
len(user.job_title.strip()) > 0: ...`.  On the current model
`user.job_title` is a ForeignKey to `employees.JobTitle` (models.py line
84), and a `JobTitle` instance has no `strip` attribute, so evaluating the
condition raises `AttributeError` whenever a job title is set. -/
def jobTitleField (jt : Option JobTitle) : Except PyError (Option String) :=
  match jt with
  | none => .ok none
  | some _ =>
      .error (.attributeError "JobTitle object has no attribute strip")

/-- The department block of `create_user`/`update_user` (azure_ad_service.py
lines 184-191 and 283-290): trim `user.department.name`, drop it when
empty, truncate to 64 characters otherwise. -/
def departmentField (department_name : Option String) : Option String :=
  match department_name with
  | none => none
  | some name =>
      let d := pyStrip name
      if d.length > 0 then
        if d.length ≤ 64 then some d else some (pyTake d 64)
      else none

/-- The `"manager@odata.bind"` entry on create (azure_ad_service.py lines
217-223): included only when the manager's `azure_ad_object_id` is set,
otherwise skipped with a warning. -/
def managerBindCreate (m : Option ManagerRef) : Option (Option String) :=
  match m with
  | some mgr =>
      match mgr.azure_ad_object_id with
      | some oid =>
          some (some ("https://graph.microsoft.com/v1.0/users/" ++ oid))
      | none => none
  | none => none

/-- The `"manager@odata.bind"` entry on update (azure_ad_service.py lines
318-328): as on create, except that a missing local manager sends an
explicit null to remove any remote manager reference. -/
def managerBindUpdate (m : Option ManagerRef) : Option (Option String) :=
  match m with
  | some mgr =>
      match mgr.azure_ad_object_id with
      | some oid =>
          some (some ("https://graph.microsoft.com/v1.0/users/" ++ oid))
      | none => none
  | none => some none

/-- The `azure_user_data` dictionary of `create_user` (azure_ad_service.py
lines 162-223). -/
def buildCreateUserData (u : UserRec) (temp_password : String) :
    Except PyError GraphUserPayload :=
  match jobTitleField u.job_title with
  | .error e => .error e
  | .ok jt => .ok {
    accountEnabled := some u.is_active
    displayName := some u.get_full_name
    mailNickname := some ((u.email.splitOn "@").headD "")
    userPrincipalName := some u.email
    mail := some (if !u.business_email.isEmpty then u.business_email else u.email)
    givenName := some u.first_name
    surname := some u.last_name
    passwordProfile := some temp_password
    jobTitle := jt
    department := departmentField u.department_name
    businessPhones :=
      if !u.phone_number.isEmpty then some [u.phone_number] else none
    companyName :=
      if !u.company_name.isEmpty then some (pyTake (pyStrip u.company_name) 64) else none
    employeeId :=
      if !u.employee_id.isEmpty then some (pyTake (pyStrip u.employee_id) 16) else none
    employeeType :=
      if !u.employee_type.isEmpty then some u.employee_type_display else none
    employeeHireDate := u.hire_date
    officeLocation :=
      if !u.office_location.isEmpty then some (pyTake (pyStrip u.office_location) 128)
      else none
    managerBind := managerBindCreate u.manager }

/-- The `update_data` dictionary of `update_user` (azure_ad_service.py
lines 267-328): no mailNickname / userPrincipalName / passwordProfile;
`businessPhones` is always present (an empty list clears the remote value);
the manager bind follows the update rule. -/
def buildUpdateUserData (u : UserRec) : Except PyError GraphUserPayload :=
  match jobTitleField u.job_title with
  | .error e => .error e
  | .ok jt => .ok {
    accountEnabled := some u.is_active
    displayName := some u.get_full_name
    mail := some (if !u.business_email.isEmpty then u.business_email else u.email)
    givenName := some u.first_name
    surname := some u.last_name
    jobTitle := jt
    department := departmentField u.department_name
    businessPhones :=
      if !u.phone_number.isEmpty then some [u.phone_number] else some []
    companyName :=
      if !u.company_name.isEmpty then some (pyTake (pyStrip u.company_name) 64) else none
    employeeId :=
      if !u.employee_id.isEmpty then some (pyTake (pyStrip u.employee_id) 16) else none
    employeeType :=
      if !u.employee_type.isEmpty then some u.employee_type_display else none
    employeeHireDate := u.hire_date
    officeLocation :=
      if !u.office_location.isEmpty then some (pyTake (pyStrip u.office_location) 128)
      else none
    managerBind := managerBindUpdate u.manager }

/-- The `(success, dict)` value a service operation returns to its caller,
abstracted to the dictionary shapes that actually occur. -/
inductive SyncCallResult
  | notConfigured
  | syncDisabled
  | alreadyExists
  | notLinked
  | syncDisabledForUser
  | createdOk (azure_ad_object_id : Option String) (temporary_password : String)
  | updatedOk
  | disabledOk
  | deletedOk
  | graphFail (error : String) (details : Option String)
deriving Repr, DecidableEq

/-- The boolean `success` component of the returned pair. -/
def SyncCallResult.success : SyncCallResult → Bool
  | .createdOk _ _ => true
  | .updatedOk => true
  | .disabledOk => true
  | .deletedOk => true
  | _ => false

/-- Whether the operation reached `_make_graph_request` (the gate branches
return before any request is attempted). -/
def SyncCallResult.reachedGraph : SyncCallResult → Bool
  | .createdOk _ _ => true
  | .updatedOk => true
  | .disabledOk => true
  | .deletedOk => true
  | .graphFail _ _ => true
  | _ => false

/-- `AzureADService.create_user` (azure_ad_service.py lines 143-249).
`temp_password` stands for the `_generate_secure_password` result, `token`
for `_get_access_token()`, `remote` for the HTTP response and `now` for
`django_timezone.now()`.  Returns the saved user together with the
`(success, dict)` outcome, or the Python exception raised while building
the payload. -/
def create_user (s : AzureADSettings) (u : UserRec) (temp_password : String)
    (token : Option String) (remote : RemoteOutcome) (now : Nat) :
    Except PyError (UserRec × SyncCallResult) :=
  if !s.is_configured then .ok (u, .notConfigured)
  else if !s.enabled || !s.sync_enabled then .ok (u, .syncDisabled)
  else if u.azure_ad_object_id.isSome then .ok (u, .alreadyExists)
  else
    match buildCreateUserData u temp_password with
    | .error e => .error e
    | .ok _payload =>
      match make_graph_request token remote with
      | .success id =>
          .ok ({ u with
                   azure_ad_object_id := id,
                   azure_ad_sync_status := .synced,
                   azure_ad_last_sync := some now,
                   azure_ad_sync_error := "" },
               .createdOk id temp_password)
      | .failure e d =>
          .ok ({ u with
                   azure_ad_sync_status := .failed,
                   azure_ad_sync_error := graphFailureMessage e d },
               .graphFail e d)

/-- `AzureADService.update_user` (azure_ad_service.py lines 251-351). -/
def update_user (s : AzureADSettings) (u : UserRec)
    (token : Option String) (remote : RemoteOutcome) (now : Nat) :
    Except PyError (UserRec × SyncCallResult) :=
  if !s.is_configured then .ok (u, .notConfigured)
  else if !s.enabled || !s.sync_enabled then .ok (u, .syncDisabled)
  else if u.azure_ad_object_id.isNone then .ok (u, .notLinked)
  else
    match buildUpdateUserData u with
    | .error e => .error e
    | .ok _payload =>
      match make_graph_request token remote with
      | .success _ =>
          .ok ({ u with
                   azure_ad_sync_status := .synced,
                   azure_ad_last_sync := some now,
                   azure_ad_sync_error := "" },
               .updatedOk)
      | .failure e d =>
          .ok ({ u with
                   azure_ad_sync_status := .failed,
                   azure_ad_sync_error := graphFailureMessage e d },
               .graphFail e d)

/-- `AzureADService.disable_user` (azure_ad_service.py lines 353-386):
the payload is the constant `{"accountEnabled": False}`; on success the
error field is not cleared, on failure it is not written. -/
def disable_user (s : AzureADSettings) (u : UserRec)
    (token : Option String) (remote : RemoteOutcome) (now : Nat) :
    UserRec × SyncCallResult :=
  if !s.is_configured then (u, .notConfigured)
  else if !s.enabled || !s.sync_enabled then (u, .syncDisabled)
  else if u.azure_ad_object_id.isNone then (u, .notLinked)
  else
    match make_graph_request token remote with
    | .success _ =>
        ({ u with
             azure_ad_sync_status := .synced,
             azure_ad_last_sync := some now },
         .disabledOk)
    | .failure e d =>
        ({ u with azure_ad_sync_status := .failed }, .graphFail e d)

/-- `AzureADService.delete_user` (azure_ad_service.py lines 388-422):
a DELETE request with no payload; on success the local `azure_ad_object_id`
is cleared and the status becomes `disabled`; on failure only the status is
written (the stored error text is untouched). -/
def delete_user (s : AzureADSettings) (u : UserRec)
    (token : Option String) (remote : RemoteOutcome) (now : Nat) :
    UserRec × SyncCallResult :=
  if !s.is_configured then (u, .notConfigured)
  else if !s.enabled || !s.sync_enabled then (u, .syncDisabled)
  else if u.azure_ad_object_id.isNone then (u, .notLinked)
  else
    match make_graph_request token remote with
    | .success _ =>
        ({ u with
             azure_ad_object_id := none,
             azure_ad_sync_status := .disabled,
             azure_ad_last_sync := some now },
         .deletedOk)
    | .failure e d =>
        ({ u with azure_ad_sync_status := .failed }, .graphFail e d)

/-- `AzureADService.sync_user_from_hris` (azure_ad_service.py lines
445-461): refuse when the per-user flag is off and `force_create` is false,
otherwise update when `azure_ad_object_id` is set and create when it is
not.  The user's `azure_ad_sync_status` is never consulted. -/
def sync_user_from_hris (s : AzureADSettings) (u : UserRec)
    (force_create : Bool) (temp_password : String)
    (token : Option String) (remote : RemoteOutcome) (now : Nat) :
    Except PyError (UserRec × SyncCallResult) :=
  if !u.azure_ad_sync_enabled && !force_create then
    .ok (u, .syncDisabledForUser)
  else if u.azure_ad_object_id.isSome then
    update_user s u token remote now
  else
    create_user s u temp_password token remote now

/-- The character set of `_generate_secure_password` (azure_ad_service.py
line 130): `string.ascii_letters + string.digits + "!@#$%^&*"`. -/
def passwordAlphabet : List Char :=
  ("abcdefghijklmnopqrstuvwxyz"
    ++ "ABCDEFGHIJKLMNOPQRSTUVWXYZ"
    ++ "0123456789"
    ++ "!@#$%^&*").toList

/-- `password = password[:-1] + secrets.choice(string.ascii_lowercase)`
guarded by `if not any(c.islower() for c in password)`
(azure_ad_service.py lines 134-135), with the drawn character supplied. -/
def ensureLower (p : List Char) (rep : Char) : List Char :=
  if p.any Char.isLower then p else p.dropLast ++ [rep]

/-- The uppercase fix-up (azure_ad_service.py lines 136-137). -/
def ensureUpper (p : List Char) (rep : Char) : List Char :=
  if p.any Char.isUpper then p else p.dropLast ++ [rep]

/-- The digit fix-up (azure_ad_service.py lines 138-139). -/
def ensureDigit (p : List Char) (rep : Char) : List Char :=
  if p.any Char.isDigit then p else p.dropLast ++ [rep]

/-- `AzureADService._generate_secure_password` (azure_ad_service.py lines
122-141) with the randomness supplied: `draws` is the list of
`secrets.choice(alphabet)` results (one per position, so the configured
length is `draws.length`), and `loRep`/`upRep`/`dgRep` are the characters
drawn by the three fix-up steps (from the lowercase, uppercase and digit
pools respectively) if taken. -/
def generate_secure_password (draws : List Char)
    (loRep upRep dgRep : Char) : List Char :=
  ensureDigit (ensureUpper (ensureLower draws loRep) upRep) dgRep

/-- The decision the Celery task takes after the service call:
return a result dictionary, or raise `self.retry(countdown=...)`. -/
inductive TaskDecision
  | returned (success : Bool)
  | retried (countdown : Nat)
deriving Repr, DecidableEq

/-- `default_retry_delay=300` of the `shared_task` decorator
(tasks.py line 21). -/
def default_retry_delay : Nat := 300

/-- `max_retries=3` of the `shared_task` decorator (tasks.py line 21). -/
def task_max_retries : Nat := 3

/-- The write at tasks.py lines 52-54: `user.azure_ad_sync_status =
'pending'; user.save()`, performed by the task wrapper before every
service call. -/
def taskPendingWrite (u : UserRec) : UserRec :=
  { u with azure_ad_sync_status := .pending }

/-- The action dispatch of `sync_user_to_azure_ad` (tasks.py lines 57-76):
`none` for an invalid action.  Both `create` and `sync` route through
`sync_user_from_hris(user, force_create=True)`. -/
def task_action_call (action : String) (s : AzureADSettings) (u : UserRec)
    (temp_password : String) (token : Option String) (remote : RemoteOutcome)
    (now : Nat) : Option (Except PyError (UserRec × SyncCallResult)) :=
  if action = "create" then
    some (sync_user_from_hris s u true temp_password token remote now)
  else if action = "update" then
    some (update_user s u token remote now)
  else if action = "disable" then
    some (.ok (disable_user s u token remote now))
  else if action = "delete" then
    some (.ok (delete_user s u token remote now))
  else if action = "sync" then
    some (sync_user_from_hris s u true temp_password token remote now)
  else none

/-- One execution of the Celery task `sync_user_to_azure_ad` (tasks.py
lines 21-119).  `azenabled`/`azsync` are the Django settings
`AZURE_AD_ENABLED`/`AZURE_AD_SYNC_ENABLED`; `u?` is the looked-up user
(`none` when `User.DoesNotExist`); `retries` is `self.request.retries`.
Returns the stored user and the task's decision.  On any service failure
(of whatever kind) with `retries < max_retries` the task re-raises via
`self.retry` with countdown `default_retry_delay * 2 ** retries`; a raised
exception additionally stores `status = failed` before retrying. -/
def sync_user_to_azure_ad_step (azenabled azsync : Bool)
    (u? : Option UserRec) (action : String) (retries : Nat)
    (s : AzureADSettings) (temp_password : String) (token : Option String)
    (remote : RemoteOutcome) (now : Nat) : Option UserRec × TaskDecision :=
  if !azenabled || !azsync then (u?, .returned false)
  else
    match u? with
    | none => (none, .returned false)
    | some user =>
      let user := taskPendingWrite user
      match task_action_call action s user temp_password token remote now with
      | none => (some user, .returned false)
      | some (.error _) =>
          (some { user with azure_ad_sync_status := .failed },
           if retries < task_max_retries then
             .retried (default_retry_delay * 2 ^ retries)
           else .returned false)
      | some (.ok (u', res)) =>
          (some u',
           if res.success then .returned true
           else if retries < task_max_retries then
             .retried (default_retry_delay * 2 ^ retries)
           else .returned false)

/-- The admin action `reset_sync_status_to_pending`
(azure_ad_admin_actions.py lines 109-119): `queryset.update(
azure_ad_sync_status='pending', azure_ad_sync_error='',
azure_ad_sync_enabled=True)`, per selected user. -/
def reset_sync_status_to_pending (u : UserRec) : UserRec :=
  { u with
      azure_ad_sync_status := .pending,
      azure_ad_sync_error := "",
      azure_ad_sync_enabled := true }

/-- The admin action `disable_azure_ad_sync` (azure_ad_admin_actions.py
lines 122-131), per selected user. -/
def disable_azure_ad_sync_action (u : UserRec) : UserRec :=
  { u with
      azure_ad_sync_enabled := false,
      azure_ad_sync_status := .disabled }

/-- The admin action `enable_azure_ad_sync` (azure_ad_admin_actions.py
lines 134-143), per selected user. -/
def enable_azure_ad_sync_action (u : UserRec) : UserRec :=
  { u with
      azure_ad_sync_enabled := true,
      azure_ad_sync_status := .pending }

/-- The admin action `remove_azure_ad_link` (azure_ad_admin_actions.py
lines 146-157), per selected user. -/
def remove_azure_ad_link (u : UserRec) : UserRec :=
  { u with
      azure_ad_object_id := none,
      azure_ad_sync_status := .pending,
      azure_ad_sync_error := "",
      azure_ad_last_sync := none }

/-- A `django.core.exceptions.FieldError` raised by the ORM when a filter
keyword does not resolve to a model field. -/
structure OrmError where
  message : String
deriving Repr, DecidableEq

/-- The DateTimeField lookups available on `accounts.models.User`: the
model (models.py lines 20-174, plus `last_login` from `AbstractBaseUser`)
declares exactly `last_login`, `date_joined`, `azure_ad_last_sync` as
DateTimeFields.  There is no `updated_at` field on `User` (only
`AzureADSettings` has one, models.py line 387), so that name resolves to
nothing. -/
def userDateTimeField : String → Option (UserRec → Option Nat)
  | "last_login" => some UserRec.last_login
  | "date_joined" => some (fun u => some u.date_joined)
  | "azure_ad_last_sync" => some UserRec.azure_ad_last_sync
  | _ => none

/-- The Celery task `cleanup_sync_status` (tasks.py lines 273-300):
`User.objects.filter(azure_ad_sync_status='pending',
updated_at__lt=timezone.now() - timedelta(hours=1))
.update(azure_ad_sync_status='failed')` over the whole user store.
Resolving the `updated_at` lookup against the `User` model fails, raising
`FieldError` before any row is touched. -/
def cleanup_sync_status (store : List UserRec) (now : Nat) :
    Except OrmError (List UserRec × Nat) :=
  let stuck_threshold := now - 3600
  match userDateTimeField "updated_at" with
  | none =>
      .error ⟨"Cannot resolve keyword updated_at into field"⟩
  | some f =>
      let isStuck := fun u =>
        u.azure_ad_sync_status == SyncStatus.pending
          && (match f u with
              | some t => decide (t < stuck_threshold)
              | none => false)
      .ok
        (store.map fun u =>
          if isStuck u then { u with azure_ad_sync_status := .failed } else u,
         (store.filter isStuck).length)

/-- The `(success, dict)` outcome component of a service call, `none` when
the call raised. -/
def syncOutcome : Except PyError (UserRec × SyncCallResult) →
    Option SyncCallResult
  | .ok (_, r) => some r
  | .error _ => none

/-- Settings fixture: fully configured and fully enabled. -/
def sFull : AzureADSettings :=
  { enabled := true
    tenant_id := "tenant-1"
    client_id := "client-1"
    client_secret := "secret-1"
    sync_enabled := true
    sync_on_user_create := true
    sync_on_user_update := true
    sync_on_user_disable := true
    default_password_length := 12 }

/-- Settings fixture: every credential present, `sync_enabled` on, but the
integration `enabled` flag off. -/
def sEnabledOff : AzureADSettings := { sFull with enabled := false }

/-- Settings fixture: enabled but with an empty tenant id, so
`is_configured` is false for a credential reason. -/
def sNoTenant : AzureADSettings := { sFull with tenant_id := "" }

/-- User fixture: a fresh, never-synced user with no job title, no
department, no manager. -/
def uBase : UserRec :=
  { email := "jane@example.com"
    business_email := ""
    first_name := "Jane"
    last_name := "Doe"
    is_active := true
    phone_number := ""
    department_name := none
    job_title := none
    company_name := ""
    employee_id := ""
    employee_type := ""
    employee_type_display := ""
    hire_date := none
    office_location := ""
    manager := none
    last_login := none
    date_joined := 0
    azure_ad_object_id := none
    azure_ad_sync_enabled := true
    azure_ad_last_sync := none
    azure_ad_sync_status := .pending
    azure_ad_sync_error := "" }

/-- User fixture: already linked to the remote directory. -/
def uLinked : UserRec :=
  { uBase with
      azure_ad_object_id := some "abc-123"
      azure_ad_sync_status := .synced
      azure_ad_last_sync := some 1
      azure_ad_sync_error := "old error" }

/-- User fixture: `status = disabled` but the per-user sync flag on and no
remote link yet. -/
def uDisabledStatus : UserRec :=
  { uBase with azure_ad_sync_status := .disabled }

/-- User fixture: per-user sync flag off. -/
def uFlagOff : UserRec :=
  { uBase with azure_ad_sync_enabled := false }

/-- User fixture: a job title is set (a `JobTitle` row, per the FK). -/
def uWithJobTitle : UserRec :=
  { uBase with job_title := some ⟨"Senior Director of Engineering"⟩ }

/-- User fixture: synced with a recorded error, for observing writes. -/
def uSyncedErr : UserRec :=
  { uBase with
      azure_ad_object_id := some "abc-123"
      azure_ad_sync_enabled := false
      azure_ad_sync_status := .synced
      azure_ad_last_sync := some 9
      azure_ad_sync_error := "previous error" }

lemma enabled_of_is_configured {s : AzureADSettings}
    (h : s.is_configured = true) : s.enabled = true := by
  rcases s with ⟨e, t, c, cs, se, s1, s2, s3, n⟩
  cases e
  · simp [AzureADSettings.is_configured] at h
  · rfl

lemma pyStrip_ne_empty_of_ne {x : String} (h : pyStrip x ≠ "") : x ≠ "" := by
  intro hx
  subst hx
  exact h (by decide)

lemma isEmpty_false_iff (x : String) : x.isEmpty = false ↔ x ≠ "" := by
  rw [Bool.eq_false_iff]
  constructor
  · intro h hx
    exact h ((String.isEmpty_iff x).mpr hx)
  · intro h ht
    exact h ((String.isEmpty_iff x).mp ht)

lemma is_configured_iff (s : AzureADSettings) :
    s.is_configured = true ↔
      (s.enabled = true ∧ pyStrip s.tenant_id ≠ "" ∧ pyStrip s.client_id ≠ ""
        ∧ pyStrip s.client_secret ≠ "") := by
  unfold AzureADSettings.is_configured
  simp only [Bool.and_eq_true, Bool.not_eq_true', isEmpty_false_iff]
  constructor
  · rintro ⟨⟨⟨⟨⟨⟨he, _⟩, _⟩, _⟩, h1⟩, h2⟩, h3⟩
    exact ⟨he, h1, h2, h3⟩
  · rintro ⟨he, h1, h2, h3⟩
    exact ⟨⟨⟨⟨⟨⟨he, pyStrip_ne_empty_of_ne h1⟩, pyStrip_ne_empty_of_ne h2⟩,
      pyStrip_ne_empty_of_ne h3⟩, h1⟩, h2⟩, h3⟩


/-! ## Claim theorems -/

/-- C1: for a `SyncTarget` with `remote_id == null` (no
`azure_ad_object_id`), when the entity and configuration gates pass, a
`create_user` call whose remote create succeeds assigns the non-null id
taken from the create response, sets `status = synced`, sets
`last_sync_at`, and clears `last_error`; a call whose remote request fails
(HTTP error or transport error) leaves the id null and sets
`status = failed` with the error recorded in `last_error`.  The job-title
hypothesis keeps the payload build from raising (see C7). -/
theorem create_user_unlinked_spec (s : AzureADSettings) (u : UserRec)
    (pw tk : String) (now : Nat)
    (hobj : u.azure_ad_object_id = none)
    (hjt : u.job_title = none)
    (hcfg : s.is_configured = true)
    (hsync : s.sync_enabled = true) :
    (∀ rid : String, ∃ u',
        create_user s u pw (some tk) (.ok (some rid)) now
          = .ok (u', .createdOk (some rid) pw)
        ∧ u'.azure_ad_object_id = some rid
        ∧ u'.azure_ad_sync_status = .synced
        ∧ u'.azure_ad_last_sync = some now
        ∧ u'.azure_ad_sync_error = "")
  ∧ (∀ (st : Nat) (text : String), ∃ u',
        create_user s u pw (some tk) (.httpError st text) now
          = .ok (u', .graphFail ("HTTP " ++ toString st) (some text))
        ∧ u'.azure_ad_object_id = none
        ∧ u'.azure_ad_sync_status = .failed
        ∧ u'.azure_ad_sync_error = "HTTP " ++ toString st ++ ": " ++ text)
  ∧ (∀ msg : String, ∃ u',
        create_user s u pw (some tk) (.transport msg) now
          = .ok (u', .graphFail msg none)
        ∧ u'.azure_ad_object_id = none
        ∧ u'.azure_ad_sync_status = .failed
        ∧ u'.azure_ad_sync_error = msg ++ ": " ++ "No details available") := by
  have hen : s.enabled = true := enabled_of_is_configured hcfg
  refine ⟨fun rid => ?_, fun st text => ?_, fun msg => ?_⟩
  · refine ⟨{ u with
        azure_ad_object_id := some rid
        azure_ad_sync_status := .synced
        azure_ad_last_sync := some now
        azure_ad_sync_error := "" }, ?_, rfl, rfl, rfl, rfl⟩
    simp [create_user, hcfg, hen, hsync, hobj, hjt, buildCreateUserData,
      jobTitleField, make_graph_request]
  · refine ⟨{ u with
        azure_ad_sync_status := .failed
        azure_ad_sync_error := "HTTP " ++ toString st ++ ": " ++ text },
        ?_, hobj, rfl, rfl⟩
    simp [create_user, hcfg, hen, hsync, hobj, hjt, buildCreateUserData,
      jobTitleField, make_graph_request, graphFailureMessage]
  · refine ⟨{ u with
        azure_ad_sync_status := .failed
        azure_ad_sync_error := msg ++ ": " ++ "No details available" },
        ?_, hobj, rfl, rfl⟩
    simp [create_user, hcfg, hen, hsync, hobj, hjt, buildCreateUserData,
      jobTitleField, make_graph_request, graphFailureMessage]

/-- Witness for C1 at concrete inputs: a fresh user, full configuration,
remote create answering id `abc-123`. -/
theorem create_user_unlinked_spec_witness :
    ∃ u', create_user sFull uBase "TempPw12" (some "tok")
            (.ok (some "abc-123")) 7
        = .ok (u', .createdOk (some "abc-123") "TempPw12")
      ∧ u'.azure_ad_object_id = some "abc-123"
      ∧ u'.azure_ad_sync_status = .synced
      ∧ u'.azure_ad_last_sync = some 7
      ∧ u'.azure_ad_sync_error = "" :=
  (create_user_unlinked_spec sFull uBase "TempPw12" "tok" 7 rfl rfl
    (by decide) rfl).1 "abc-123"


lemma str_append_assoc (a b c : String) : a ++ b ++ c = a ++ (b ++ c) := by
  apply String.ext
  simp [String.data_append, List.append_assoc]

/-- `update_user` never writes `azure_ad_object_id`, whatever branch it
takes. -/
lemma update_user_object_id_eq (s : AzureADSettings) (u : UserRec)
    (token : Option String) (remote : RemoteOutcome) (now : Nat)
    (u' : UserRec) (res : SyncCallResult)
    (h : update_user s u token remote now = .ok (u', res)) :
    u'.azure_ad_object_id = u.azure_ad_object_id := by
  unfold update_user at h
  split at h
  · cases h; rfl
  · split at h
    · cases h; rfl
    · split at h
      · cases h; rfl
      · split at h
        · cases h
        · split at h
          · cases h; rfl
          · cases h; rfl

/-- With no job title set, `update_user` never raises. -/
lemma update_user_ok_of_no_job_title (s : AzureADSettings) (u : UserRec)
    (token : Option String) (remote : RemoteOutcome) (now : Nat)
    (hjt : u.job_title = none) :
    ∃ u' res, update_user s u token remote now = .ok (u', res) := by
  unfold update_user
  split
  · exact ⟨u, _, rfl⟩
  · split
    · exact ⟨u, _, rfl⟩
    · split
      · exact ⟨u, _, rfl⟩
      · simp only [buildUpdateUserData, jobTitleField, hjt]
        split
        · exact ⟨_, _, rfl⟩
        · exact ⟨_, _, rfl⟩


/-- C2: for a `SyncTarget` with a non-null `remote_id`
(`azure_ad_object_id = some rid`), every `sync_user_from_hris` call —
whatever the configuration, force flag, token and remote outcome — returns
with `azure_ad_object_id` unchanged; and when the remote update is
answered with HTTP 403, the status becomes `failed` and the stored
`last_error` contains `403`. -/
theorem sync_linked_remote_id_frame (u : UserRec) (rid : String)
    (hobj : u.azure_ad_object_id = some rid)
    (hjt : u.job_title = none) :
    (∀ (s : AzureADSettings) (force : Bool) (pw : String)
        (token : Option String) (remote : RemoteOutcome) (now : Nat),
        ∃ u' res,
          sync_user_from_hris s u force pw token remote now = .ok (u', res)
          ∧ u'.azure_ad_object_id = some rid)
  ∧ (∀ (s : AzureADSettings) (pw tk text : String) (now : Nat),
        s.is_configured = true → s.sync_enabled = true →
        ∃ u',
          sync_user_from_hris s u true pw (some tk) (.httpError 403 text) now
            = .ok (u', .graphFail ("HTTP " ++ toString 403) (some text))
          ∧ u'.azure_ad_object_id = some rid
          ∧ u'.azure_ad_sync_status = .failed
          ∧ ∃ a b, u'.azure_ad_sync_error = a ++ "403" ++ b) := by
  constructor
  · intro s force pw token remote now
    unfold sync_user_from_hris
    split
    · exact ⟨u, _, rfl, hobj⟩
    · split
      · obtain ⟨u', res, h⟩ :=
          update_user_ok_of_no_job_title s u token remote now hjt
        exact ⟨u', res, h,
          (update_user_object_id_eq s u token remote now u' res h).trans hobj⟩
      · next hn => exact absurd (by rw [hobj]; rfl) hn
  · intro s pw tk text now hcfg hsync
    have hen : s.enabled = true := enabled_of_is_configured hcfg
    refine ⟨{ u with
        azure_ad_sync_status := .failed
        azure_ad_sync_error := "HTTP " ++ toString 403 ++ ": " ++ text },
      ?_, hobj, rfl, ?_⟩
    · simp [sync_user_from_hris, update_user, hcfg, hen, hsync, hobj, hjt,
        buildUpdateUserData, jobTitleField, make_graph_request,
        graphFailureMessage]
    · refine ⟨"HTTP ", ": " ++ text, ?_⟩
      rw [show (toString (403 : Nat)) = "403" from by decide]
      exact str_append_assoc _ _ _

/-- Witness for C2: linked user `abc-123`, remote update refused with
HTTP 403. -/
theorem sync_linked_remote_id_frame_witness :
    ∃ u', sync_user_from_hris sFull uLinked true "Pw" (some "tok")
            (.httpError 403 "Forbidden") 9
        = .ok (u', .graphFail ("HTTP " ++ toString 403) (some "Forbidden"))
      ∧ u'.azure_ad_object_id = some "abc-123"
      ∧ u'.azure_ad_sync_status = .failed
      ∧ ∃ a b, u'.azure_ad_sync_error = a ++ "403" ++ b :=
  (sync_linked_remote_id_frame uLinked "abc-123" rfl rfl).2 sFull "Pw" "tok"
    "Forbidden" 9 (by decide) rfl


lemma bool_false_of_not_true {b : Bool} (h : ¬ b = true) : b = false := by
  revert h
  cases b <;> simp

/-- With both gates passing, `create_user` can only end in
already-exists, a raised payload exception, a created success, or a graph
failure — never in a gate outcome. -/
lemma create_user_outcome_cases (s : AzureADSettings) (u : UserRec)
    (pw : String) (token : Option String) (remote : RemoteOutcome) (now : Nat)
    (hc : s.is_configured = true) (hs : s.sync_enabled = true) :
    syncOutcome (create_user s u pw token remote now) = some .alreadyExists
    ∨ syncOutcome (create_user s u pw token remote now) = none
    ∨ (∃ i, syncOutcome (create_user s u pw token remote now)
          = some (.createdOk i pw))
    ∨ (∃ e d, syncOutcome (create_user s u pw token remote now)
          = some (.graphFail e d)) := by
  have hen : s.enabled = true := enabled_of_is_configured hc
  unfold create_user
  simp only [hc, hen, hs, Bool.not_true, Bool.or_self, if_false,
    Bool.false_eq_true]
  split
  · left; rfl
  · split
    · right; left; rfl
    · split
      · right; right; left; exact ⟨_, rfl⟩
      · right; right; right; exact ⟨_, _, rfl⟩

/-- C3 amended: `create_user` returns the NotConfigured failure exactly
when `enabled` is false or one of tenant id / client id / client secret is
empty after trimming (`is_configured` itself requires `enabled`,
models.py line 429, and is checked first), and returns the
SyncGloballyDisabled failure exactly when `is_configured` holds and
`sync_enabled` is false. -/
theorem create_user_gate_kinds (s : AzureADSettings) (u : UserRec)
    (pw : String) (token : Option String) (remote : RemoteOutcome)
    (now : Nat) :
    (syncOutcome (create_user s u pw token remote now) = some .notConfigured
      ↔ ¬(s.enabled = true ∧ pyStrip s.tenant_id ≠ ""
            ∧ pyStrip s.client_id ≠ "" ∧ pyStrip s.client_secret ≠ ""))
  ∧ (syncOutcome (create_user s u pw token remote now) = some .syncDisabled
      ↔ (s.is_configured = true ∧ s.sync_enabled = false)) := by
  have hiff := is_configured_iff s
  by_cases hc : s.is_configured = true
  · have hen : s.enabled = true := enabled_of_is_configured hc
    by_cases hs : s.sync_enabled = true
    · constructor
      · constructor
        · intro h
          rcases create_user_outcome_cases s u pw token remote now hc hs with
            h1 | h1 | ⟨i, h1⟩ | ⟨e, d, h1⟩ <;> rw [h1] at h <;> simp at h
        · intro h
          exact (h (hiff.mp hc)).elim
      · constructor
        · intro h
          rcases create_user_outcome_cases s u pw token remote now hc hs with
            h1 | h1 | ⟨i, h1⟩ | ⟨e, d, h1⟩ <;> rw [h1] at h <;> simp at h
        · rintro ⟨-, hfalse⟩
          rw [hs] at hfalse
          cases hfalse
    · have hs' : s.sync_enabled = false := bool_false_of_not_true hs
      have hout : create_user s u pw token remote now
          = .ok (u, .syncDisabled) := by
        unfold create_user
        simp [hc, hen, hs']
      rw [hout]
      constructor
      · constructor
        · intro h
          simp [syncOutcome] at h
        · intro h
          exact (h (hiff.mp hc)).elim
      · constructor
        · intro _
          exact ⟨hc, hs'⟩
        · intro _
          rfl
  · have hc' : s.is_configured = false := bool_false_of_not_true hc
    have hout : create_user s u pw token remote now
        = .ok (u, .notConfigured) := by
      unfold create_user
      simp [hc']
    rw [hout]
    constructor
    · constructor
      · intro _ hconj
        exact hc (hiff.mpr hconj)
      · intro _
        rfl
    · constructor
      · intro h
        simp [syncOutcome] at h
      · rintro ⟨hc2, -⟩
        exact (hc hc2).elim

/-- C3 counterexample: full credentials, `sync_enabled = true`, but
`enabled = false` — `create_user` returns the NotConfigured failure,
although the claim demands SyncGloballyDisabled for `enabled == false`
and reserves NotConfigured for an empty-after-trim credential. -/
theorem create_user_gate_kinds_counterexample :
    create_user sEnabledOff uBase "Pw" (some "tok") (.ok (some "abc")) 0
      = .ok (uBase, .notConfigured)
  ∧ sEnabledOff.enabled = false
  ∧ sEnabledOff.sync_enabled = true
  ∧ pyStrip sEnabledOff.tenant_id ≠ ""
  ∧ pyStrip sEnabledOff.client_id ≠ ""
  ∧ pyStrip sEnabledOff.client_secret ≠ ""
  ∧ SyncCallResult.notConfigured ≠ SyncCallResult.syncDisabled := by
  decide


/-- C4: the complexity fix-up of `_generate_secure_password` overwrites
the same final position three times, so a reachable draw of twelve `!`
characters (every one in the generation alphabet) with fix-up draws
`a`/`A`/`0` ends as `!!!!!!!!!!!0`: the configured length and the alphabet
are respected and a digit is present, but no lowercase and no uppercase
letter survives — contradicting the guaranteed at-least-one-of-each and
the code's own comment (azure_ad_service.py line 133). -/
theorem generate_secure_password_fixup_bug :
    generate_secure_password (List.replicate 12 '!') 'a' 'A' '0'
      = List.replicate 11 '!' ++ ['0']
  ∧ (List.replicate 12 '!').length = 12
  ∧ (∀ c ∈ List.replicate 12 '!', c ∈ passwordAlphabet)
  ∧ (generate_secure_password (List.replicate 12 '!') 'a' 'A' '0').length
      = 12
  ∧ (∀ c ∈ generate_secure_password (List.replicate 12 '!') 'a' 'A' '0',
      c ∈ passwordAlphabet)
  ∧ (generate_secure_password (List.replicate 12 '!') 'a' 'A' '0').any
      Char.isLower = false
  ∧ (generate_secure_password (List.replicate 12 '!') 'a' 'A' '0').any
      Char.isUpper = false
  ∧ (generate_secure_password (List.replicate 12 '!') 'a' 'A' '0').any
      Char.isDigit = true := by
  decide

/-- C5 amended: the task wrapper performs no transient/terminal
classification — any failed service result, of whatever kind, is retried
with countdown `default_retry_delay * 2 ^ retries` whenever
`retries < max_retries`.  (Only the module-settings gate, a missing user
and an invalid action return without retrying.) -/
theorem task_retry_uniform (s : AzureADSettings) (u u' : UserRec)
    (res : SyncCallResult) (retries : Nat) (pw tk : String)
    (remote : RemoteOutcome) (now : Nat)
    (hcall : sync_user_from_hris s (taskPendingWrite u) true pw (some tk)
        remote now = .ok (u', res))
    (hfail : res.success = false)
    (hr : retries < task_max_retries) :
    sync_user_to_azure_ad_step true true (some u) "sync" retries s pw
        (some tk) remote now
      = (some u', .retried (default_retry_delay * 2 ^ retries)) := by
  simp [sync_user_to_azure_ad_step, task_action_call, hcall, hfail, hr]

/-- Witness for C5: a linked user, service failing with the non-transient
HTTP 403, second attempt — the wrapper retries with countdown 600. -/
theorem task_retry_uniform_witness :
    sync_user_to_azure_ad_step true true (some uLinked) "sync" 1 sFull "Pw"
        (some "tok") (.httpError 403 "Forbidden") 5
      = (some { uLinked with
                  azure_ad_sync_status := .failed
                  azure_ad_sync_error := "HTTP 403: Forbidden" },
         .retried 600) :=
  task_retry_uniform sFull uLinked
    { uLinked with
        azure_ad_sync_status := .failed
        azure_ad_sync_error := "HTTP 403: Forbidden" }
    (.graphFail "HTTP 403" (some "Forbidden"))
    1 "Pw" "tok" (.httpError 403 "Forbidden") 5 (by decide) (by decide)
    (by decide)

/-- C5 counterexample: with the module gates open and the service
returning the non-transient NotConfigured failure (empty tenant id), the
wrapper nevertheless re-invokes itself: it schedules a retry with
countdown 300 instead of returning the failure. -/
theorem task_retry_uniform_counterexample :
    sync_user_to_azure_ad_step true true (some uBase) "sync" 0 sNoTenant
        "Pw" (some "tok") (.ok (some "abc")) 5
      = (some (taskPendingWrite uBase), .retried 300)
  ∧ syncOutcome (sync_user_from_hris sNoTenant (taskPendingWrite uBase) true
        "Pw" (some "tok") (.ok (some "abc")) 5) = some .notConfigured := by
  decide


/-- `update_user` never returns the per-entity refusal outcome. -/
lemma update_user_ne_refusal (s : AzureADSettings) (u : UserRec)
    (token : Option String) (remote : RemoteOutcome) (now : Nat)
    (u' : UserRec) :
    update_user s u token remote now ≠ .ok (u', .syncDisabledForUser) := by
  intro h
  unfold update_user at h
  split at h
  · simp at h
  · split at h
    · simp at h
    · split at h
      · simp at h
      · split at h
        · cases h
        · split at h <;> simp at h

/-- `create_user` never returns the per-entity refusal outcome. -/
lemma create_user_ne_refusal (s : AzureADSettings) (u : UserRec)
    (pw : String) (token : Option String) (remote : RemoteOutcome)
    (now : Nat) (u' : UserRec) :
    create_user s u pw token remote now ≠ .ok (u', .syncDisabledForUser) := by
  intro h
  unfold create_user at h
  split at h
  · simp at h
  · split at h
    · simp at h
    · split at h
      · simp at h
      · split at h
        · cases h
        · split at h <;> simp at h

/-- The outcome of `update_user` does not depend on the stored sync
status. -/
lemma update_user_status_independent (s : AzureADSettings) (u : UserRec)
    (token : Option String) (remote : RemoteOutcome) (now : Nat)
    (st : SyncStatus) :
    syncOutcome (update_user s { u with azure_ad_sync_status := st }
        token remote now)
      = syncOutcome (update_user s u token remote now) := by
  unfold update_user
  dsimp only
  split
  · rfl
  · split
    · rfl
    · split
      · rfl
      · rw [show buildUpdateUserData { u with azure_ad_sync_status := st }
            = buildUpdateUserData u from rfl]

/-- The outcome of `create_user` does not depend on the stored sync
status. -/
lemma create_user_status_independent (s : AzureADSettings) (u : UserRec)
    (pw : String) (token : Option String) (remote : RemoteOutcome)
    (now : Nat) (st : SyncStatus) :
    syncOutcome (create_user s { u with azure_ad_sync_status := st } pw
        token remote now)
      = syncOutcome (create_user s u pw token remote now) := by
  unfold create_user
  dsimp only
  split
  · rfl
  · split
    · rfl
    · split
      · rfl
      · rw [show buildCreateUserData { u with azure_ad_sync_status := st } pw
            = buildCreateUserData u pw from rfl]

/-- C6 amended: `sync_user_from_hris` refuses exactly when the per-user
`azure_ad_sync_enabled` flag is off and `force_create` is false; the
stored `azure_ad_sync_status` is never consulted, so the outcome is
unchanged under any replacement of the status — in particular a target
with `status = disabled` is synced like any other. -/
theorem sync_refusal_iff_flag (s : AzureADSettings) (u : UserRec)
    (force : Bool) (pw : String) (token : Option String)
    (remote : RemoteOutcome) (now : Nat) :
    ((u.azure_ad_sync_enabled = false ∧ force = false) ↔
        sync_user_from_hris s u force pw token remote now
          = .ok (u, .syncDisabledForUser))
  ∧ (∀ st : SyncStatus,
        syncOutcome (sync_user_from_hris s
            { u with azure_ad_sync_status := st } force pw token remote now)
          = syncOutcome (sync_user_from_hris s u force pw token remote now))
    := by
  constructor
  · constructor
    · rintro ⟨h1, h2⟩
      unfold sync_user_from_hris
      rw [h1, h2]
      rfl
    · intro h
      by_cases h1 : u.azure_ad_sync_enabled = false
      · by_cases h2 : force = false
        · exact ⟨h1, h2⟩
        · exfalso
          have h2t : force = true := by
            revert h2
            cases force <;> simp
          unfold sync_user_from_hris at h
          rw [h2t] at h
          simp only [Bool.not_true, Bool.and_false, Bool.false_eq_true,
            if_false] at h
          split at h
          · exact update_user_ne_refusal s u token remote now u h
          · exact create_user_ne_refusal s u pw token remote now u h
      · exfalso
        have h1t : u.azure_ad_sync_enabled = true := by
          revert h1
          cases u.azure_ad_sync_enabled <;> simp
        unfold sync_user_from_hris at h
        rw [h1t] at h
        simp only [Bool.not_true, Bool.false_and, Bool.false_eq_true,
          if_false] at h
        split at h
        · exact update_user_ne_refusal s u token remote now u h
        · exact create_user_ne_refusal s u pw token remote now u h
  · intro st
    unfold sync_user_from_hris
    dsimp only
    split
    · rfl
    · split
      · exact update_user_status_independent s u token remote now st
      · exact create_user_status_independent s u pw token remote now st

/-- C6 counterexample: a target with `status = disabled` (sync flag on,
fully configured settings) is not refused: the sync proceeds, makes the
remote create call, succeeds, and even rewrites the status to `synced` —
where the claim demands refusal without any remote call. -/
theorem sync_refusal_iff_flag_counterexample :
    sync_user_from_hris sFull uDisabledStatus false "Pw" (some "tok")
        (.ok (some "abc-123")) 3
      = .ok ({ uDisabledStatus with
                 azure_ad_object_id := some "abc-123"
                 azure_ad_sync_status := .synced
                 azure_ad_last_sync := some 3
                 azure_ad_sync_error := "" },
             .createdOk (some "abc-123") "Pw")
  ∧ uDisabledStatus.azure_ad_sync_status = SyncStatus.disabled
  ∧ (SyncCallResult.createdOk (some "abc-123") "Pw").success = true
  ∧ (SyncCallResult.createdOk (some "abc-123") "Pw").reachedGraph = true := by
  decide


/-- C7: the claimed truncation never happens — `user.job_title` is a
ForeignKey to `employees.JobTitle` (models.py line 84; its `title`
CharField is capped at 100 characters, so a title longer than 128 cannot
even be stored), and `create_user` / `update_user` evaluate
`user.job_title.strip()` (azure_ad_service.py lines 177 and 276), which
raises `AttributeError` for every user with a job title: no payload is
built and nothing is transmitted. -/
theorem job_title_payload_raises :
    create_user sFull uWithJobTitle "Pw" (some "tok") (.ok (some "abc")) 0
      = .error (.attributeError "JobTitle object has no attribute strip")
  ∧ update_user sFull
        { uWithJobTitle with azure_ad_object_id := some "abc-123" }
        (some "tok") (.ok none) 0
      = .error (.attributeError "JobTitle object has no attribute strip")
  ∧ uWithJobTitle.job_title = some ⟨"Senior Director of Engineering"⟩ := by
  decide

/-- C8: the stuck-pending sweep crashes on every run: its ORM filter
names `updated_at`, which is not a field of `User` (the model's
DateTimeFields are `last_login`, `date_joined` and `azure_ad_last_sync`;
an `updated_at` exists only on `AzureADSettings`, models.py line 387), so
`FieldError` is raised and no target is transitioned — and even the
intended update writes no synthetic `last_error`. -/
theorem cleanup_sync_status_field_error (store : List UserRec) (now : Nat) :
    cleanup_sync_status store now
      = .error ⟨"Cannot resolve keyword updated_at into field"⟩ := rfl

/-- C9 amended: the sync-state fields are written outside the service as
well: the task wrapper stores `status = pending` before every service
call (tasks.py line 53), and the admin actions write status, error,
remote id and last-sync timestamp directly (reset-to-pending,
enable/disable sync, unlink). -/
theorem sync_state_written_outside_service (u : UserRec) :
    (taskPendingWrite u).azure_ad_sync_status = .pending
  ∧ (reset_sync_status_to_pending u).azure_ad_sync_status = .pending
  ∧ (reset_sync_status_to_pending u).azure_ad_sync_error = ""
  ∧ (enable_azure_ad_sync_action u).azure_ad_sync_status = .pending
  ∧ (disable_azure_ad_sync_action u).azure_ad_sync_status = .disabled
  ∧ (remove_azure_ad_link u).azure_ad_object_id = none
  ∧ (remove_azure_ad_link u).azure_ad_last_sync = none :=
  ⟨rfl, rfl, rfl, rfl, rfl, rfl, rfl⟩

/-- C9 counterexample: the admin action `reset_sync_status_to_pending` —
not the Reconciler — rewrites the sync-state fields of a synced target,
and the task wrapper rewrites the status before any service call. -/
theorem sync_state_written_outside_service_counterexample :
    (reset_sync_status_to_pending uSyncedErr).azure_ad_sync_status
        ≠ uSyncedErr.azure_ad_sync_status
  ∧ (reset_sync_status_to_pending uSyncedErr).azure_ad_sync_error
        ≠ uSyncedErr.azure_ad_sync_error
  ∧ (taskPendingWrite uSyncedErr).azure_ad_sync_status
        ≠ uSyncedErr.azure_ad_sync_status
  ∧ (remove_azure_ad_link uSyncedErr).azure_ad_object_id
        ≠ uSyncedErr.azure_ad_object_id := by
  decide

/-- C10: for a linked target with the gates passing, a remote delete that
succeeds clears `azure_ad_object_id`, sets `status = disabled` (not
pending) and stamps `last_sync`; a delete that fails keeps the id, sets
`status = failed`, and touches neither the stored error text nor the
timestamp. -/
theorem delete_user_spec (s : AzureADSettings) (u : UserRec)
    (rid tk : String) (now : Nat)
    (hcfg : s.is_configured = true)
    (hsync : s.sync_enabled = true)
    (hobj : u.azure_ad_object_id = some rid) :
    (∀ body : Option String,
        delete_user s u (some tk) (.ok body) now
          = ({ u with
                 azure_ad_object_id := none
                 azure_ad_sync_status := .disabled
                 azure_ad_last_sync := some now }, .deletedOk))
  ∧ (∀ (st : Nat) (text : String), ∃ u',
        delete_user s u (some tk) (.httpError st text) now
          = (u', .graphFail ("HTTP " ++ toString st) (some text))
        ∧ u'.azure_ad_object_id = some rid
        ∧ u'.azure_ad_sync_status = .failed
        ∧ u'.azure_ad_sync_error = u.azure_ad_sync_error
        ∧ u'.azure_ad_last_sync = u.azure_ad_last_sync)
  ∧ (∀ msg : String, ∃ u',
        delete_user s u (some tk) (.transport msg) now
          = (u', .graphFail msg none)
        ∧ u'.azure_ad_object_id = some rid
        ∧ u'.azure_ad_sync_status = .failed
        ∧ u'.azure_ad_sync_error = u.azure_ad_sync_error
        ∧ u'.azure_ad_last_sync = u.azure_ad_last_sync)
  ∧ SyncStatus.disabled ≠ SyncStatus.pending := by
  have hen : s.enabled = true := enabled_of_is_configured hcfg
  refine ⟨fun body => ?_, fun st text => ?_, fun msg => ?_, by decide⟩
  · simp [delete_user, hcfg, hen, hsync, hobj, make_graph_request]
  · refine ⟨{ u with azure_ad_sync_status := .failed },
      ?_, hobj, rfl, rfl, rfl⟩
    simp [delete_user, hcfg, hen, hsync, hobj, make_graph_request]
  · refine ⟨{ u with azure_ad_sync_status := .failed },
      ?_, hobj, rfl, rfl, rfl⟩
    simp [delete_user, hcfg, hen, hsync, hobj, make_graph_request]

/-- Witness for C10: deleting the linked user `abc-123`, success and
failure. -/
theorem delete_user_spec_witness :
    delete_user sFull uLinked (some "tok") (.ok none) 11
      = ({ uLinked with
             azure_ad_object_id := none
             azure_ad_sync_status := .disabled
             azure_ad_last_sync := some 11 }, .deletedOk)
  ∧ ∃ u', delete_user sFull uLinked (some "tok")
        (.httpError 404 "NotFound") 11
      = (u', .graphFail ("HTTP " ++ toString 404) (some "NotFound"))
      ∧ u'.azure_ad_sync_status = .failed
      ∧ u'.azure_ad_sync_error = uLinked.azure_ad_sync_error := by
  have h := delete_user_spec sFull uLinked "abc-123" "tok" 11 (by decide)
    rfl rfl
  refine ⟨h.1 none, ?_⟩
  obtain ⟨u', he, -, hst, herr, -⟩ := h.2.1 404 "NotFound"
  exact ⟨u', he, hst, herr⟩

end DaniPlatform
